import Mathlib

/-!
Verification of the incremental crime-data synchronization pipeline
(`dataupdate.py`, `dataload.py`, `api.py`) against its specification.

The Python source is shallowly embedded: pure transformations become Lean
functions on lists; the database, the remote CKAN API, the clock and the
status file become explicit values threaded through the functions; every
`try/except` of the source becomes an explicit branch on an outcome flag.
Timestamps are modelled as integers counting days (the only timestamp
arithmetic the pipeline performs is `timedelta(days=1)` subtraction and a
maximum), and `fromYMD` converts a civil calendar date to that day count.
-/

/-- A raw record as returned by the CKAN `datastore_search` endpoint, after
`pd.DataFrame(records)`: each of the eight mapped upstream columns
(`column_mapping` in `dataupdate.py`) is either present or missing.  A
missing value renders as the string `"nan"` under pandas `astype(str)`. -/
structure RawRecord where
  inc_number : Option String          -- 'INC NUMBER'
  ucr_crime_category : Option String  -- 'UCR CRIME CATEGORY'
  occurred_on : Option String         -- 'OCCURRED ON'
  occurred_to : Option String         -- 'OCCURRED TO'
  block_addr : Option String          -- '100 BLOCK ADDR'
  zip : Option String                 -- 'ZIP'
  premise : Option String             -- 'PREMISE TYPE'
  grid : Option String                -- 'GRID'
deriving Repr, DecidableEq

/-- A cleaned row of the `crimes` table, i.e. the database schema produced by
`clean_api_data` / `clean_data`.  `occurred_date` is a parsed timestamp
(in days); rows whose timestamp fails to parse never reach this type. -/
structure CleanRecord where
  incident_id : String
  crime_type : Option String
  occurred_date : Int
  occurred_to_date : Option Int
  address : Option String
  zip_code : Option String
  premise_type : Option String
  grid_id : Option String
deriving Repr, DecidableEq

/-- The durable `crimes` table, in insertion order. -/
abbrev DB := List CleanRecord

/-- pandas `astype(str)` on a possibly-missing value: a missing entry (NaN)
renders as the literal string `"nan"`. -/
def astypeStr : Option String → String
  | none => "nan"
  | some s => s

/-- Python `str.strip()`: drop leading and trailing whitespace. -/
def pyStrip (s : String) : String :=
  String.mk
    (((s.toList.dropWhile Char.isWhitespace).reverse.dropWhile
        Char.isWhitespace).reverse)

/-- `dataupdate.clean_api_data` text-column cleaning:
`astype(str).str.strip()` followed by
`replace(['nan', 'NaN', '', 'None'], None)`. -/
def cleanText (v : Option String) : Option String :=
  let t := pyStrip (astypeStr v)
  if t = "nan" || t = "NaN" || t = "" || t = "None" then none else some t

/-- `dataload.clean_data` text-column cleaning:
`astype(str).str.strip()` followed by `replace('nan', None)` (only the one
sentinel is replaced in the CSV loader). -/
def cleanTextCsv (v : Option String) : Option String :=
  let t := pyStrip (astypeStr v)
  if t = "nan" then none else some t

/-- Helper for `extract5`: scan a character list for the leftmost run of five
consecutive digits. -/
def extract5Go : List Char → Option String
  | [] => none
  | c :: cs =>
    let w := (c :: cs).take 5
    if w.length = 5 && w.all Char.isDigit then some (String.mk w)
    else extract5Go cs

/-- The ZIP cleaning `astype(str).str.extract('(\d{5})')[0]`: the leftmost
five consecutive digits of the rendered value, absent when there is no such
run. -/
def extract5 (s : String) : Option String :=
  extract5Go s.toList

/-- Per-row part of `dataupdate.clean_api_data` (steps before the final
`drop_duplicates`): incident-id `astype(str).str.strip()` with the
`!= '' and != 'nan'` filter, `pd.to_datetime(..., errors='coerce')` with
`dropna` on `occurred_date`, text-column cleaning and ZIP extraction.
`pd` models `pd.to_datetime` on one raw value (`none` = unparsable/NaT). -/
def cleanRow (pd : Option String → Option Int) (r : RawRecord) :
    Option CleanRecord :=
  let iid := pyStrip (astypeStr r.inc_number)
  if iid = "" || iid = "nan" then none
  else
    match pd r.occurred_on with
    | none => none
    | some d =>
      some {
        incident_id := iid
        crime_type := cleanText r.ucr_crime_category
        occurred_date := d
        occurred_to_date := pd r.occurred_to
        address := cleanText r.block_addr
        zip_code := extract5 (astypeStr r.zip)
        premise_type := cleanText r.premise
        grid_id := cleanText r.grid }

/-- Per-row part of `dataload.clean_data`: same shape as `cleanRow` but the
CSV loader has no 'OCCURRED TO' column and replaces only the `'nan'`
sentinel in text columns. -/
def cleanRowCsv (pd : Option String → Option Int) (r : RawRecord) :
    Option CleanRecord :=
  let iid := pyStrip (astypeStr r.inc_number)
  if iid = "" || iid = "nan" then none
  else
    match pd r.occurred_on with
    | none => none
    | some d =>
      some {
        incident_id := iid
        crime_type := cleanTextCsv r.ucr_crime_category
        occurred_date := d
        occurred_to_date := none
        address := cleanTextCsv r.block_addr
        zip_code := extract5 (astypeStr r.zip)
        premise_type := cleanTextCsv r.premise
        grid_id := cleanTextCsv r.grid }

/-- `df.drop_duplicates(subset=['incident_id'], keep='first')`, phrased the
way pandas computes it: walk the rows in order, keep a row exactly when its
identifier has not been seen yet. -/
def dedupByIdAux (seen : List String) : List CleanRecord → List CleanRecord
  | [] => []
  | r :: rs =>
    if seen.contains r.incident_id then dedupByIdAux seen rs
    else r :: dedupByIdAux (r.incident_id :: seen) rs

/-- `df.drop_duplicates(subset=['incident_id'], keep='first')`: keep the
first row bearing each identifier, preserving order otherwise. -/
def dedupById (l : List CleanRecord) : List CleanRecord :=
  dedupByIdAux [] l

/-- `dataupdate.clean_api_data`: per-row cleaning followed by the final
`drop_duplicates(subset=['incident_id'], keep='first')`.  Empty input
yields the empty frame. -/
def clean_api_data (pd : Option String → Option Int)
    (records : List RawRecord) : List CleanRecord :=
  dedupById (records.filterMap (cleanRow pd))

/-- `dataload.clean_data`: per-row cleaning of the CSV frame followed by the
same final `drop_duplicates(subset=['incident_id'], keep='first')`. -/
def clean_data (pd : Option String → Option Int)
    (records : List RawRecord) : List CleanRecord :=
  dedupById (records.filterMap (cleanRowCsv pd))

/-- Python `', '.join(xs)`. -/
def joinComma : List String → String
  | [] => ""
  | [x] => x
  | x :: y :: xs => x ++ ", " ++ joinComma (y :: xs)

/-- The per-identifier placeholder `f"'{id}'"` of
`dataupdate.update_database` line 253. -/
def quoteId (id : String) : String := "'" ++ id ++ "'"

/-- `placeholders = ', '.join([f"'{id}'" for id in incident_ids])`
(`dataupdate.update_database` line 253): identifier values are spliced into
the SQL text by plain string concatenation. -/
def buildPlaceholders (ids : List String) : String :=
  joinComma (ids.map quoteId)

/-- The existence-check query text of `dataupdate.update_database` line 254:
`f"SELECT incident_id FROM crimes WHERE incident_id IN ({placeholders})"`. -/
def buildExistingIdsQuery (ids : List String) : String :=
  "SELECT incident_id FROM crimes WHERE incident_id IN (" ++
    buildPlaceholders ids ++ ")"

/-- Watermark adjustment of `run_api_update` lines 316-317:
`since_date = latest_db_date - timedelta(days=1)` when a latest date exists,
otherwise `None` (full unbounded fetch). -/
def since_of (latest : Option Int) : Option Int :=
  latest.map (fun d => d - 1)

/-- Civil date → day count (days since 1970-01-01), the standard
days-from-civil computation; used only to give calendar meaning to the
day-valued timestamps of the model. -/
def fromYMD (y m d : Int) : Int :=
  let y2 := if m ≤ 2 then y - 1 else y
  let era := (if 0 ≤ y2 then y2 else y2 - 399) / 400
  let yoe := y2 - era * 400
  let mp := (m + 9) % 12
  let doy := (153 * mp + 2) / 5 + d - 1
  let doe := yoe * 365 + yoe / 4 - yoe / 100 + doy
  era * 146097 + doe - 719468

/-- The query parameters built by `fetch_new_records` lines 128-140:
`limit` clamped to the upstream ceiling 32000, the pagination `offset`, and
the optional `filters = {'OCCURRED ON': f'>{date_str}'}` — an exclusive
lower bound on the occurrence timestamp, present exactly when a
`since_date` was supplied. -/
structure FetchParams where
  resource_id : String
  limit : Nat
  offset : Nat
  filters : Option (String × Int)
deriving Repr, DecidableEq

/-- `fetch_new_records`'s construction of its request parameters. -/
def build_params (since : Option Int) (limitReq offset : Nat) : FetchParams :=
  { resource_id := "0ce3411a-2fc6-4302-a33f-167f68608a20"
    limit := min limitReq 32000
    offset := offset
    filters := since.map (fun d => ("OCCURRED ON", d)) }

/-- The environment of one update cycle: the remote CKAN datastore (the
ordered result sequence for each possible filter), which page calls fail
(network error or a `success=false` payload — `fetch_new_records` treats
both alike), the `resource_show` outcome, the timestamp parser, the failure
switches of the database connection, the bulk insert and the status-file
write, and the cycle's wall-clock readings. -/
structure Env where
  remote : Option (String × Int) → List RawRecord
  failAt : Nat → Bool
  metadata : Option String
  parseDate : Option String → Option Int
  connectFails : Bool
  writeFails : Bool
  statusWriteFails : Bool
  startTime : Int
  endTime : Int

/-- The `status` dictionary of `run_api_update` (the RunReport).  Keys that
the code adds only later in the cycle are `Option`-valued. -/
structure Status where
  start_time : Int
  method : String
  success : Bool
  records_fetched : Nat
  records_inserted : Nat
  error : Option String
  dataset_last_modified : Option String
  records_cleaned : Option Nat
  message : Option String
  end_time : Option Int
  duration : Option Int
deriving Repr, DecidableEq

/-- The filesystem as seen by the status-file code: a JSON document per
file name. -/
abbrev FS := String → Option Status

/-- `self.status_file` of `PhoenixCrimeAPIUpdater.__init__`
(`dataupdate.py` line 59). -/
def updater_status_file : String := "api_update_status.json"

/-- The `status_file` read by the `/api/update-status` endpoint
(`api.py` line 75). -/
def endpoint_status_file : String := "update_status.json"

/-- The read performed by `api.py update_status` lines 74-80: load the
document at `'update_status.json'` when it exists (`none` models the
"No update history found" branch). -/
def update_status_read (fs : FS) : Option Status :=
  fs endpoint_status_file

/-- `get_latest_db_date`: `SELECT MAX(occurred_date) FROM crimes`, or `None`
when the connection cannot be created (or the table is empty). -/
def maxOccurred (db : DB) : Option Int :=
  db.foldl
    (fun acc r =>
      match acc with
      | none => some r.occurred_date
      | some m => some (max m r.occurred_date))
    none

/-- `get_latest_db_date` of `dataupdate.py` lines 99-114. -/
def get_latest_db_date (env : Env) (db : DB) : Option Int :=
  if env.connectFails then none else maxOccurred db

/-- `fetch_new_records` (`dataupdate.py` lines 116-161): build the request
parameters, issue one page call with the filter `since`; on any exception
or non-success payload return `([], 0)` — the `except` branch at lines
159-161 swallows the error and the function's only outputs are the record
list and the total. -/
def fetch_new_records (env : Env) (since : Option Int)
    (limitReq offset : Nat) : List RawRecord × Nat :=
  let p := build_params since limitReq offset
  if env.failAt p.offset then ([], 0)
  else
    let data := env.remote p.filters
    ((data.drop p.offset).take p.limit, data.length)

/-- The `while True` pagination loop of `fetch_all_new_records`
(`dataupdate.py` lines 173-186), with an explicit iteration budget `fuel`
standing for the unbounded loop (`c9_pagination_terminates` proves a budget
of data-size + 1 always suffices, so the budget never binds): fetch the
page at `offset`; stop with the accumulator if it is empty; otherwise
append it, advance `offset` by the batch size 10000, and stop if the page
was short. -/
def fetchAllLoop (env : Env) (since : Option Int) :
    Nat → Nat → List RawRecord → Option (List RawRecord)
  | 0, _, _ => none
  | fuel + 1, offset, acc =>
    let pr := fetch_new_records env since 10000 offset
    if pr.1.isEmpty then some acc
    else
      let acc2 := acc ++ pr.1
      if pr.1.length < 10000 then some acc2
      else fetchAllLoop env since fuel (offset + 10000) acc2

/-- `fetch_all_new_records` (`dataupdate.py` lines 163-189): run the
pagination loop from offset 0 with a proven-sufficient iteration budget. -/
def fetch_all_new_records (env : Env) (since : Option Int) :
    List RawRecord :=
  (fetchAllLoop env since
      ((env.remote (build_params since 10000 0).filters).length + 1)
      0 []).getD []

/-- `update_database` (`dataupdate.py` lines 235-287).  The existence check
issues the query text `buildExistingIdsQuery incident_ids`; its result set
is modelled (for identifier values that do not themselves corrupt the
query — see `c2_lookup_not_parameterized`) as the stored identifiers that
occur among the candidates.  Returns the new table state and the boolean
the function returns; `env.writeFails` models `df.to_sql` raising, which
the `except` at lines 283-285 converts to `False`. -/
def update_database (env : Env) (db : DB) (df : List CleanRecord) :
    DB × Bool :=
  if df.length = 0 then (db, true)
  else if env.connectFails then (db, false)
  else
    let incident_ids := df.map (fun r => r.incident_id)
    let existing_ids :=
      (db.map (fun r => r.incident_id)).filter
        (fun i => incident_ids.contains i)
    let df2 := df.filter (fun r => !(existing_ids.contains r.incident_id))
    if df2.length = 0 then (db, true)
    else if env.writeFails then (db, false)
    else (db ++ df2, true)

/-- The `try`/`except` part of `run_api_update` (`dataupdate.py` lines
304-350).  Every statement of the `try` body that can raise is itself
wrapped in a `try/except` by the functions it calls, except the explicit
`raise Exception("Database update failed")`; that raise is the branch
handing `error` to the `except` block here.  Result: the table state, the
`status` dictionary as it stands when control reaches `finally`, and the
value the function will return (`True` from the early return of the
no-new-records branch at line 331, otherwise `status['success']`). -/
def run_try (env : Env) (db : DB) : DB × Status × Bool :=
  let status0 : Status := {
    start_time := env.startTime
    method := "CKAN API"
    success := false
    records_fetched := 0
    records_inserted := 0
    error := none
    dataset_last_modified := none
    records_cleaned := none
    message := none
    end_time := none
    duration := none }
  let status1 :=
    match env.metadata with
    | some lm => { status0 with dataset_last_modified := some lm }
    | none => status0
  let latest := get_latest_db_date env db
  let since := since_of latest
  let records := fetch_all_new_records env since
  let status2 := { status1 with records_fetched := records.length }
  if records.isEmpty then
    (db,
     { status2 with
       success := true
       message := some "No new records available" },
     true)
  else
    let df := clean_api_data env.parseDate records
    let status3 := { status2 with records_cleaned := some df.length }
    let ud := update_database env db df
    let status4 := { status3 with
      records_inserted := if ud.2 then df.length else 0 }
    if ud.2 then
      (ud.1,
       { status4 with
         success := true
         message := some ("Successfully processed " ++
           toString df.length ++ " new records") },
       true)
    else
      (ud.1,
       { status4 with error := some "Database update failed" },
       false)

/-- `run_api_update` (`dataupdate.py` lines 289-363): the `try`/`except`
body followed by the `finally` block (lines 352-361), which stamps
`end_time` and `duration` onto the status and writes it to the updater's
status file (a failed write is caught at lines 360-361 and leaves the
filesystem unchanged); the function then returns its boolean to the
caller. -/
def run_api_update (env : Env) (db : DB) (fs : FS) : DB × FS × Bool :=
  let t := run_try env db
  let stF := { t.2.1 with
    end_time := some env.endTime
    duration := some (env.endTime - t.2.1.start_time) }
  let fs2 :=
    if env.statusWriteFails then fs
    else fun name =>
      if name = updater_status_file then some stF else fs name
  (t.1, fs2, t.2.2)

/-- The batch loop of `dataload.load_to_database` (lines 140-164), over
chunks of `batch_size = 1000`.  `valid` models which individual rows the
store accepts: a chunk's batch-level `to_sql` commits atomically and
succeeds exactly when every row of the chunk is acceptable (a malformed row
poisons the whole multi-row INSERT); on a batch failure the code falls back
to one `to_sql` per row, counting each success into
`successful_records` and merely printing each per-row failure.  Returns the
rows committed (in order) and the `successful_records` count. -/
def load_batches (valid : CleanRecord → Bool) (df : List CleanRecord) :
    List CleanRecord × Nat :=
  if h : df = [] then ([], 0)
  else
    let batch := df.take 1000
    let rest := load_batches valid (df.drop 1000)
    let here :=
      if batch.all valid then (batch, batch.length)
      else (batch.filter valid, (batch.filter valid).length)
    (here.1 ++ rest.1, here.2 + rest.2)
termination_by df.length
decreasing_by
  simp only [List.length_drop]
  have hpos : 0 < df.length := List.length_pos.mpr h
  omega

/-- `dataload.load_to_database` (lines 117-181): connection test, then the
chunked load with per-record fallback; the function returns `True` once
the loop completes, whatever was skipped.  Result: new table state,
`successful_records`, returned boolean. -/
def load_to_database (valid : CleanRecord → Bool) (connectFails : Bool)
    (db : DB) (df : List CleanRecord) : DB × Nat × Bool :=
  if connectFails then (db, 0, false)
  else
    let r := load_batches valid df
    (db ++ r.1, r.2, true)

/-- A concrete stand-in for `pd.to_datetime` used by the concrete scenarios:
parse a string of decimal digits as a day number, anything else is
unparsable.  (The claim theorems quantify over the parser; this instance
only feeds the witnesses and counterexamples.) -/
def parseDateNum : Option String → Option Int
  | none => none
  | some s =>
    let cs := s.toList
    if cs ≠ [] && cs.all Char.isDigit then
      some (Int.ofNat (cs.foldl (fun a c => a * 10 + (c.toNat - 48)) 0))
    else none

/-- Specification of `dedupByIdAux`: the kept rows have pairwise distinct
identifiers, and every kept row is the first row of the input bearing its
identifier (and its identifier was not in `seen`). -/
theorem dedupByIdAux_spec :
    ∀ (l : List CleanRecord) (seen : List String),
      (dedupByIdAux seen l).Pairwise
          (fun a b => a.incident_id ≠ b.incident_id)
      ∧ ∀ r ∈ dedupByIdAux seen l,
          l.find? (fun s => s.incident_id == r.incident_id) = some r
          ∧ seen.contains r.incident_id = false := by
  intro l
  induction l with
  | nil => intro seen; simp [dedupByIdAux]
  | cons x xs ih =>
    intro seen
    by_cases hx : seen.contains x.incident_id
    · simp only [dedupByIdAux, hx, if_pos]
      obtain ⟨ihp, ihm⟩ := ih seen
      refine ⟨ihp, ?_⟩
      intro r hr
      obtain ⟨hfind, hseen⟩ := ihm r hr
      have hne : (x.incident_id == r.incident_id) = false := by
        simp only [beq_eq_false_iff_ne, ne_eq]
        intro he
        rw [he] at hx
        rw [hseen] at hx
        exact Bool.noConfusion hx
      exact ⟨by rw [List.find?_cons_of_neg _ (by simp [hne]), hfind], hseen⟩
    · have hx' : seen.contains x.incident_id = false :=
        eq_false_of_ne_true hx
      simp only [dedupByIdAux, hx', Bool.false_eq_true, if_false]
      obtain ⟨ihp, ihm⟩ := ih (x.incident_id :: seen)
      constructor
      · refine List.Pairwise.cons ?_ ihp
        intro b hb
        have h2 := (ihm b hb).2
        simp only [List.contains_cons, Bool.or_eq_false_iff,
          beq_eq_false_iff_ne, ne_eq] at h2
        exact fun he => h2.1 he.symm
      · intro r hr
        rcases List.mem_cons.mp hr with he | hmem
        · subst he
          refine ⟨?_, hx'⟩
          rw [List.find?_cons_of_pos _ (by simp)]
        · obtain ⟨hfind, hseen⟩ := ihm r hmem
          simp only [List.contains_cons, Bool.or_eq_false_iff,
            beq_eq_false_iff_ne, ne_eq] at hseen
          refine ⟨?_, hseen.2⟩
          rw [List.find?_cons_of_neg _
            (by simp; exact fun he => hseen.1 he.symm), hfind]

/-- The pagination loop reaches its terminal condition within
data-size + 1 iterations: each continuing iteration consumes a full page
of 10000 records of the (fixed, finite) filtered datastore. -/
theorem fetchAllLoop_total :
    ∀ (env : Env) (since : Option Int) (fuel offset : Nat)
      (acc : List RawRecord),
      0 < fuel →
      (env.remote (build_params since 10000 0).filters).length <
        offset + 10000 * fuel →
      (fetchAllLoop env since fuel offset acc).isSome = true := by
  intro env since fuel
  induction fuel with
  | zero => intro offset acc h0 _; exact (Nat.lt_irrefl 0 h0).elim
  | succ n ih =>
    intro offset acc _ h1
    rw [fetchAllLoop]
    by_cases hf : env.failAt offset
    · simp [fetch_new_records, build_params, hf]
    · simp only [fetch_new_records, build_params, hf, if_false,
        Bool.false_eq_true]
      set data := env.remote (Option.map (fun d => ("OCCURRED ON", d)) since)
        with hdata
      have h2 : (env.remote (build_params since 10000 0).filters).length =
          data.length := by
        simp [build_params, hdata]
      rw [h2] at h1
      split
      next => simp
      next hempty =>
        split
        next => simp
        next hshort =>
          have hlen : ((data.drop offset).take (min 10000 32000)).length =
              min (min 10000 32000) (data.length - offset) := by
            simp [List.length_take, List.length_drop]
          have hemp : ((data.drop offset).take (min 10000 32000)).isEmpty =
              false := by
            cases hh : ((data.drop offset).take (min 10000 32000)).isEmpty
            · rfl
            · exact absurd hh hempty
          have hlenpos :
              0 < ((data.drop offset).take (min 10000 32000)).length := by
            cases hc : (data.drop offset).take (min 10000 32000) with
            | nil => rw [hc] at hemp; simp [List.isEmpty] at hemp
            | cons a l => simp
          rw [hlen] at hshort hlenpos
          apply ih (offset + 10000)
          · omega
          · omega

/-- In every branch of the `try` body, `status['start_time']` keeps the
value set at cycle start. -/
theorem run_try_start_time (env : Env) (db : DB) :
    (run_try env db).2.1.start_time = env.startTime := by
  unfold run_try
  rcases env.metadata with _ | lm <;> dsimp only <;> split
  · rfl
  · split <;> rfl
  · rfl
  · split <;> rfl

/-- In every branch of the `try` body, the value returned to the caller
coincides with `status['success']` (the early `return True` of the
no-new-records branch returns `True` right after setting
`status['success'] = True`). -/
theorem run_try_ret_eq_success (env : Env) (db : DB) :
    (run_try env db).2.2 = (run_try env db).2.1.success := by
  unfold run_try
  rcases env.metadata with _ | lm <;> dsimp only <;> split
  · rfl
  · split <;> rfl
  · rfl
  · split <;> rfl

/-- `update_database` returns `True` whenever the connection and the bulk
insert are healthy (including the nothing-to-insert early returns). -/
theorem update_database_ok (env : Env) (db : DB) (df : List CleanRecord)
    (hc : env.connectFails = false) (hw : env.writeFails = false) :
    (update_database env db df).2 = true := by
  unfold update_database
  simp only [hc, hw, Bool.false_eq_true, if_false]
  split
  · rfl
  · split
    · rfl
    · rfl

/-- When the first page call succeeds with a full page and the call at
offset 10000 fails, `fetch_all_new_records` silently returns just the
first page: the failed call's `([], 0)` is read as end-of-data. -/
theorem fetchAll_partial_failure (env : Env) (since : Option Int)
    (h0 : env.failAt 0 = false) (h1 : env.failAt 10000 = true)
    (hlen : 10000 ≤ (env.remote (build_params since 10000 0).filters).length) :
    fetch_all_new_records env since =
      (env.remote (build_params since 10000 0).filters).take 10000 := by
  obtain ⟨k, hk⟩ := Nat.exists_eq_add_of_le hlen
  unfold fetch_all_new_records
  rw [hk]
  have hs1 : (10000 + k + 1) = (10000 + k) + 1 := rfl
  rw [hs1, fetchAllLoop]
  have hfetch0 : fetch_new_records env since 10000 0 =
      ((env.remote (build_params since 10000 0).filters).take 10000,
       (env.remote (build_params since 10000 0).filters).length) := by
    simp [fetch_new_records, build_params, h0]
  rw [hfetch0]
  have hlen10 :
      ((env.remote (build_params since 10000 0).filters).take 10000).length
        = 10000 := by
    simp [List.length_take]
    omega
  have hne : ((env.remote (build_params since 10000 0).filters).take
      10000).isEmpty = false := by
    cases hc : (env.remote (build_params since 10000 0).filters).take 10000
    · rw [hc] at hlen10; simp at hlen10
    · simp [List.isEmpty]
  simp only [hne, Bool.false_eq_true, if_false, hlen10, Nat.lt_irrefl,
    if_false]
  have hs2 : (10000 + k) = (9999 + k) + 1 := by omega
  rw [hs2, fetchAllLoop]
  have hfetch1 : fetch_new_records env since 10000 10000 = ([], 0) := by
    simp [fetch_new_records, build_params, h1]
  rw [hfetch1]
  simp

/-- The chunked load commits exactly the acceptable rows and counts them,
whether a chunk goes through at batch level or row by row. -/
theorem load_batches_spec (valid : CleanRecord → Bool) :
    ∀ (n : Nat) (df : List CleanRecord), df.length ≤ n →
      load_batches valid df = (df.filter valid, (df.filter valid).length) := by
  intro n
  induction n with
  | zero =>
    intro df h
    have hdf : df = [] := List.length_eq_zero.mp (Nat.le_zero.mp h)
    subst hdf
    rw [load_batches]
    simp
  | succ n ih =>
    intro df h
    rw [load_batches]
    split
    next hnil => subst hnil; simp
    next hnil =>
      have hpos : 0 < df.length := List.length_pos.mpr hnil
      have hrest := ih (df.drop 1000) (by simp [List.length_drop]; omega)
      dsimp only
      rw [hrest]
      have hsplit : df.filter valid =
          (df.take 1000).filter valid ++ (df.drop 1000).filter valid := by
        conv_lhs => rw [← List.take_append_drop 1000 df]
        rw [List.filter_append]
      by_cases hall : (df.take 1000).all valid = true
      · have htake : (df.take 1000).filter valid = df.take 1000 :=
          List.filter_eq_self.mpr (List.all_eq_true.mp hall)
        rw [if_pos hall, hsplit, htake]
        simp [List.length_append]
      · rw [if_neg hall, hsplit]
        simp [List.length_append]

/-- C2: the Deduplication Gate's bulk existence lookup is NOT parameterized:
the query text is built by naive concatenation of identifier values, so a
quote character inside an identifier alters the structure of the issued
query.  Universally, the single crafted identifier `x ++ "', '" ++ y`
produces the very same query as the two separate identifiers `x` and `y`;
in particular the distinct candidate lists `["a', 'b"]` and `["a", "b"]`
are indistinguishable in the query they issue. -/
theorem c2_lookup_not_parameterized :
    (∀ x y : String,
      buildExistingIdsQuery [x ++ "', '" ++ y] = buildExistingIdsQuery [x, y])
    ∧ buildExistingIdsQuery ["a', 'b"] = buildExistingIdsQuery ["a", "b"]
    ∧ (["a', 'b"] : List String) ≠ ["a", "b"] := by
  refine ⟨?_, by decide, by decide⟩
  intro x y
  have hsep : ("', '" : String) = "'" ++ ", " ++ "'" := rfl
  simp only [buildExistingIdsQuery, buildPlaceholders, joinComma, quoteId,
    List.map, hsep, String.append_assoc]

/-- Concrete environment for C5: the upstream holds one record, but every
page call fails. -/
def c5FailEnv : Env := {
  remote := fun _ => [⟨some "X", none, some "12", none, none, none, none,
    none⟩]
  failAt := fun _ => true
  metadata := none
  parseDate := parseDateNum
  connectFails := false
  writeFails := false
  statusWriteFails := false
  startTime := 0
  endTime := 1 }

/-- Concrete environment for C5: every call succeeds but the upstream is
genuinely empty. -/
def c5EmptyEnv : Env := {
  c5FailEnv with
  remote := fun _ => []
  failAt := fun _ => false }

/-- C5 counterexample: a failed page call returns exactly `([], 0)` and is
bit-for-bit identical to a successful call against an empty upstream — no
`FetchError` (nor any other signal) reaches the caller, even though data
was available upstream.  The `except` branch of `fetch_new_records`
(lines 159-161) swallows the exception. -/
theorem c5_counterexample_no_fetch_error_signal :
    fetch_new_records c5FailEnv none 10000 0 = ([], 0)
    ∧ fetch_new_records c5EmptyEnv none 10000 0 = ([], 0)
    ∧ fetch_new_records c5FailEnv none 10000 0 =
        fetch_new_records c5EmptyEnv none 10000 0
    ∧ c5FailEnv.remote none ≠ [] := by
  refine ⟨by decide, by decide, by decide, by decide⟩

/-- C5 as amended: on a network failure or non-success-status response,
`fetch_new_records` returns an empty record sequence together with a zero
total, but signals no error of any kind to the caller — the caller cannot
distinguish the failure from a successful empty page. -/
theorem c5_amended_failure_returns_empty :
    ∀ (env : Env) (since : Option Int) (limitReq offset : Nat),
      env.failAt offset = true →
      fetch_new_records env since limitReq offset = ([], 0) := by
  intro env since limitReq offset h
  simp [fetch_new_records, build_params, h]

/-- Witness for `c5_amended_failure_returns_empty` at a concrete failing
environment. -/
theorem c5_amended_failure_returns_empty_witness :
    c5FailEnv.failAt 0 = true
    ∧ fetch_new_records c5FailEnv none 10000 0 = ([], 0) :=
  ⟨rfl, c5_amended_failure_returns_empty c5FailEnv none 10000 0 rfl⟩

/-- C7: when the store holds a maximum occurrence timestamp `w`, the cycle
fetches with the exclusive lower bound `w - 1` day (the `'OCCURRED ON'`
filter); when the store is empty no filter is attached (full unbounded
fetch).  The calendar instance: a watermark of 2024-03-10 yields the lower
bound 2024-03-09. -/
theorem c7_watermark_one_day_buffer :
    (∀ (w : Int) (limitReq offset : Nat),
        (build_params (since_of (some w)) limitReq offset).filters =
          some ("OCCURRED ON", w - 1))
    ∧ (∀ limitReq offset : Nat,
        (build_params (since_of none) limitReq offset).filters = none)
    ∧ since_of (some (fromYMD 2024 3 10)) = some (fromYMD 2024 3 9)
    ∧ fromYMD 2024 3 10 = 19792 ∧ fromYMD 2024 3 9 = 19791 := by
  refine ⟨?_, ?_, by decide, by decide, by decide⟩
  · intro w limitReq offset
    simp [build_params, since_of]
  · intro limitReq offset
    simp [build_params, since_of]

/-- C9: the pagination of `fetch_all_new_records` terminates on every
environment and filter, yielding a finite record sequence: the loop, given
an iteration budget one larger than the filtered datastore, reaches its
terminal condition (an empty or short page) and returns. -/
theorem c9_pagination_terminates :
    ∀ (env : Env) (since : Option Int),
      ∃ result : List RawRecord,
        fetchAllLoop env since
          ((env.remote (build_params since 10000 0).filters).length + 1)
          0 [] = some result
        ∧ fetch_all_new_records env since = result := by
  intro env since
  have h := fetchAllLoop_total env since
    ((env.remote (build_params since 10000 0).filters).length + 1) 0 []
    (Nat.succ_pos _) (by omega)
  obtain ⟨r, hr⟩ := Option.isSome_iff_exists.mp h
  exact ⟨r, hr, by simp [fetch_all_new_records, hr]⟩

/-- C6: for every cycle — success, failure, or a raise caught by the
`except` block — the finalizing step runs: a status bearing `end_time` and
`duration` is written to the updater's status file as the last action
(unless the status write itself fails, which is caught and leaves the
filesystem untouched), and the caller receives the boolean
`status['success']`, never an exception. -/
theorem c6_finalization_always_runs :
    ∀ (env : Env) (db : DB) (fs : FS),
      ∃ st : Status,
        (run_api_update env db fs).2.1 =
          (if env.statusWriteFails then fs
           else fun name =>
             if name = updater_status_file then some st else fs name)
        ∧ st.end_time = some env.endTime
        ∧ st.duration = some (env.endTime - env.startTime)
        ∧ (run_api_update env db fs).2.2 = st.success := by
  intro env db fs
  refine ⟨{ (run_try env db).2.1 with
            end_time := some env.endTime
            duration := some (env.endTime - (run_try env db).2.1.start_time) },
          rfl, rfl, ?_, ?_⟩
  · simp [run_try_start_time]
  · show (run_try env db).2.2 = _
    rw [run_try_ret_eq_success]

/-- C8: no two records of a normalized batch share an identifier, and every
surviving record is the first pre-dedup occurrence of its identifier —
for the API cleaner `clean_api_data` and the CSV cleaner `clean_data`
alike, for every timestamp parser and every input batch. -/
theorem c8_normalizer_intra_batch_dedup :
    ∀ (pd : Option String → Option Int) (rs : List RawRecord),
      ((clean_api_data pd rs).Pairwise
          (fun a b => a.incident_id ≠ b.incident_id)
        ∧ ∀ r ∈ clean_api_data pd rs,
            (rs.filterMap (cleanRow pd)).find?
              (fun s => s.incident_id == r.incident_id) = some r)
      ∧ ((clean_data pd rs).Pairwise
          (fun a b => a.incident_id ≠ b.incident_id)
        ∧ ∀ r ∈ clean_data pd rs,
            (rs.filterMap (cleanRowCsv pd)).find?
              (fun s => s.incident_id == r.incident_id) = some r) := by
  intro pd rs
  refine ⟨⟨(dedupByIdAux_spec _ []).1, fun r hr => ?_⟩,
          ⟨(dedupByIdAux_spec _ []).1, fun r hr => ?_⟩⟩
  · exact ((dedupByIdAux_spec (rs.filterMap (cleanRow pd)) []).2 r hr).1
  · exact ((dedupByIdAux_spec (rs.filterMap (cleanRowCsv pd)) []).2 r hr).1

/-- A batch with identifier "A" occurring twice (with different payloads)
plus one "B" record, for the C8 witness. -/
def c8Raws : List RawRecord :=
  [⟨some "A", none, some "10", none, none, none, none, none⟩,
   ⟨some "A", some "THEFT", some "11", none, none, none, none, none⟩,
   ⟨some "B", none, some "12", none, none, none, none, none⟩]

/-- The cleaned first occurrence of identifier "A" in `c8Raws`. -/
def c8CleanA : CleanRecord := ⟨"A", none, 10, none, none, none, none, none⟩

/-- Witness for `c8_normalizer_intra_batch_dedup`: on `c8Raws` the kept "A"
row is the first occurrence. -/
theorem c8_normalizer_intra_batch_dedup_witness :
    c8CleanA ∈ clean_api_data parseDateNum c8Raws
    ∧ (c8Raws.filterMap (cleanRow parseDateNum)).find?
        (fun s => s.incident_id == c8CleanA.incident_id) = some c8CleanA :=
  ⟨by decide,
   (c8_normalizer_intra_batch_dedup parseDateNum c8Raws).1.2 c8CleanA
     (by decide)⟩

/-- Environment for the C1 scenario: the upstream (after the watermark
filter) returns two records "A" and "B"; everything is healthy. -/
def c1Env : Env := {
  remote := fun _ =>
    [⟨some "A", none, some "10", none, none, none, none, none⟩,
     ⟨some "B", none, some "11", none, none, none, none, none⟩]
  failAt := fun _ => false
  metadata := none
  parseDate := parseDateNum
  connectFails := false
  writeFails := false
  statusWriteFails := false
  startTime := 0
  endTime := 5 }

/-- The row with identifier "A" already stored in the crimes table before
the C1 cycle. -/
def c1Db : DB := [⟨"A", none, 10, none, none, none, none, none⟩]

/-- C1 (code bug): with "A" already stored, the cycle cleans 2 candidate
records, the Deduplication Gate filters "A" out and only "B" is committed
(the table grows from 1 to 2 rows), yet the persisted report says
`records_inserted = 2`: `run_api_update` line 339 counts the cleaned
frame, not the rows durably committed. -/
theorem c1_records_inserted_overcounts :
    ((run_api_update c1Env c1Db (fun _ => none)).2.1
        updater_status_file).map Status.records_inserted = some 2
    ∧ ((run_api_update c1Env c1Db (fun _ => none)).2.1
        updater_status_file).map Status.success = some true
    ∧ (run_api_update c1Env c1Db (fun _ => none)).1.length = 2
    ∧ c1Db.length = 1 := by
  refine ⟨by decide, by decide, by decide, by decide⟩

/-- Environment for the C3 counterexample: ten well-formed upstream
records, but the bulk insert of `update_database` raises
(`writeFails`). -/
def c3Env : Env := {
  remote := fun _ =>
    [⟨some "R0", none, some "10", none, none, none, none, none⟩,
     ⟨some "R1", none, some "10", none, none, none, none, none⟩,
     ⟨some "R2", none, some "10", none, none, none, none, none⟩,
     ⟨some "R3", none, some "10", none, none, none, none, none⟩,
     ⟨some "R4", none, some "10", none, none, none, none, none⟩,
     ⟨some "R5", none, some "10", none, none, none, none, none⟩,
     ⟨some "R6", none, some "10", none, none, none, none, none⟩,
     ⟨some "R7", none, some "10", none, none, none, none, none⟩,
     ⟨some "R8", none, some "10", none, none, none, none, none⟩,
     ⟨some "R9", none, some "10", none, none, none, none, none⟩]
  failAt := fun _ => false
  metadata := none
  parseDate := parseDateNum
  connectFails := false
  writeFails := true
  statusWriteFails := false
  startTime := 0
  endTime := 7 }

/-- C3 counterexample: in the sync cycle's writer (`update_database`) a
batch-level write failure has no per-record fallback — all ten cleaned
candidates are discarded, nothing is committed, the report records the
error with `records_inserted = 0` and `success = false`, and the cycle
returns failure; not `recordsInserted = 9` with one skip. -/
theorem c3_counterexample_batch_failure_discards_all :
    ((run_api_update c3Env [] (fun _ => none)).2.1 updater_status_file).map
        Status.records_cleaned = some (some 10)
    ∧ ((run_api_update c3Env [] (fun _ => none)).2.1 updater_status_file).map
        Status.records_inserted = some 0
    ∧ ((run_api_update c3Env [] (fun _ => none)).2.1 updater_status_file).map
        Status.success = some false
    ∧ ((run_api_update c3Env [] (fun _ => none)).2.1 updater_status_file).map
        Status.error = some (some "Database update failed")
    ∧ (run_api_update c3Env [] (fun _ => none)).1 = []
    ∧ (run_api_update c3Env [] (fun _ => none)).2.2 = false := by
  refine ⟨by decide, by decide, by decide, by decide, by decide, by decide⟩

/-- Ten cleaned rows for the amended C3 statement. -/
def c3Recs : List CleanRecord :=
  [⟨"R0", none, 10, none, none, none, none, none⟩,
   ⟨"R1", none, 10, none, none, none, none, none⟩,
   ⟨"R2", none, 10, none, none, none, none, none⟩,
   ⟨"R3", none, 10, none, none, none, none, none⟩,
   ⟨"R4", none, 10, none, none, none, none, none⟩,
   ⟨"R5", none, 10, none, none, none, none, none⟩,
   ⟨"R6", none, 10, none, none, none, none, none⟩,
   ⟨"R7", none, 10, none, none, none, none, none⟩,
   ⟨"R8", none, 10, none, none, none, none, none⟩,
   ⟨"R9", none, 10, none, none, none, none, none⟩]

/-- Acceptability predicate for the amended C3 instance: the store rejects
exactly the row "R3" (nine of ten rows are valid). -/
def c3Valid (r : CleanRecord) : Bool := r.incident_id != "R3"

/-- C3 as amended: the per-record fallback lives in the CSV loader's
writer, `dataload.load_to_database`, not in the sync cycle's writer.
There, for every acceptability pattern, a chunk whose batch write fails is
retried row by row, so exactly the acceptable rows are committed and
counted and the call still returns `True`; with 9 of 10 rows valid,
`successful_records = 9`.  (In the sync cycle's `update_database`, by
contrast, a batch failure fails the whole call —
see the counterexample.) -/
theorem c3_amended_csv_loader_fallback :
    (∀ (valid : CleanRecord → Bool) (db : DB) (df : List CleanRecord),
        load_to_database valid false db df =
          (db ++ df.filter valid, (df.filter valid).length, true))
    ∧ load_to_database c3Valid false [] c3Recs =
        (c3Recs.filter c3Valid, 9, true)
    ∧ (c3Recs.filter c3Valid).length = 9 := by
  have hgen : ∀ (valid : CleanRecord → Bool) (db : DB)
      (df : List CleanRecord),
      load_to_database valid false db df =
        (db ++ df.filter valid, (df.filter valid).length, true) := by
    intro valid db df
    unfold load_to_database
    rw [load_batches_spec valid df.length df (le_refl _)]
    simp
  refine ⟨hgen, ?_, by decide⟩
  rw [hgen]
  simp only [List.nil_append]
  decide

/-- Environment for the C4 scenario: a healthy cycle with an empty
upstream (the no-new-records success path still writes the report). -/
def c4Env : Env := {
  remote := fun _ => []
  failAt := fun _ => false
  metadata := none
  parseDate := parseDateNum
  connectFails := false
  writeFails := false
  statusWriteFails := false
  startTime := 0
  endTime := 3 }

/-- C4 (code bug): the updater persists its report at
`'api_update_status.json'` while the `/api/update-status` endpoint reads
`'update_status.json'` — two different files.  Universally, the endpoint's
read after a cycle is whatever that unrelated file held before (the cycle
never touches it); concretely, after a cycle on a fresh filesystem the
endpoint sees nothing while the updater's file holds the new report. -/
theorem c4_status_file_mismatch :
    (∀ (env : Env) (db : DB) (fs : FS),
        update_status_read (run_api_update env db fs).2.1 =
          fs endpoint_status_file)
    ∧ updater_status_file ≠ endpoint_status_file
    ∧ update_status_read (run_api_update c4Env [] (fun _ => none)).2.1 = none
    ∧ ((run_api_update c4Env [] (fun _ => none)).2.1
        updater_status_file).isSome = true := by
  refine ⟨?_, by decide, by decide, by decide⟩
  intro env db fs
  unfold update_status_read run_api_update
  dsimp only
  split
  · rfl
  · exact if_neg (by decide)

/-- C10: when the first page call succeeds with a full page of 10000
records and the call at offset 10000 fails, the cycle absorbs the failure
as end-of-data: it processes exactly the first page, the report carries
`success = true`, no error, and `records_fetched = 10000`, and the caller
is told the cycle succeeded — a partial fetch is indistinguishable in the
report from a complete one. -/
theorem c10_partial_fetch_reported_success :
    ∀ (env : Env) (db : DB) (fs : FS),
      env.failAt 0 = false →
      env.failAt 10000 = true →
      env.connectFails = false →
      env.writeFails = false →
      10000 ≤ (env.remote (build_params
          (since_of (get_latest_db_date env db)) 10000 0).filters).length →
      fetch_all_new_records env (since_of (get_latest_db_date env db)) =
        (env.remote (build_params
          (since_of (get_latest_db_date env db)) 10000 0).filters).take 10000
      ∧ (run_try env db).2.1.success = true
      ∧ (run_try env db).2.1.error = none
      ∧ (run_try env db).2.1.records_fetched = 10000
      ∧ (run_api_update env db fs).2.2 = true := by
  intro env db fs h0 h1 hc hw hlen
  have hfetch := fetchAll_partial_failure env _ h0 h1 hlen
  have hlen10 : (fetch_all_new_records env
      (since_of (get_latest_db_date env db))).length = 10000 := by
    rw [hfetch]
    simp [List.length_take]
    omega
  have hne : (fetch_all_new_records env
      (since_of (get_latest_db_date env db))).isEmpty = false := by
    cases hcs : fetch_all_new_records env (since_of (get_latest_db_date env db))
    · rw [hcs] at hlen10; simp at hlen10
    · simp [List.isEmpty]
  have hud := update_database_ok env db (clean_api_data env.parseDate
    (fetch_all_new_records env (since_of (get_latest_db_date env db)))) hc hw
  refine ⟨hfetch, ?_, ?_, ?_, ?_⟩
  · unfold run_try
    rcases env.metadata with _ | lm <;> dsimp only <;>
      simp only [hne, Bool.false_eq_true, if_false, hud, if_true]
  · unfold run_try
    rcases env.metadata with _ | lm <;> dsimp only <;>
      simp only [hne, Bool.false_eq_true, if_false, hud, if_true]
  · unfold run_try
    rcases env.metadata with _ | lm <;> dsimp only <;>
      simp only [hne, Bool.false_eq_true, if_false, hud, if_true, hlen10]
  · show (run_try env db).2.2 = true
    unfold run_try
    rcases env.metadata with _ | lm <;> dsimp only <;>
      simp only [hne, Bool.false_eq_true, if_false, hud, if_true]

/-- Environment for the C10 witness: 10001 identical upstream records, the
page call at offset 10000 fails, everything else healthy. -/
def c10Env : Env := {
  remote := fun _ =>
    List.replicate 10001 ⟨some "W", none, some "10", none, none, none,
      none, none⟩
  failAt := fun o => o == 10000
  metadata := none
  parseDate := parseDateNum
  connectFails := false
  writeFails := false
  statusWriteFails := false
  startTime := 0
  endTime := 2 }

/-- Witness for `c10_partial_fetch_reported_success` on `c10Env`. -/
theorem c10_partial_fetch_reported_success_witness :
    c10Env.failAt 0 = false
    ∧ c10Env.failAt 10000 = true
    ∧ (run_try c10Env []).2.1.success = true
    ∧ (run_try c10Env []).2.1.error = none
    ∧ (run_try c10Env []).2.1.records_fetched = 10000
    ∧ (run_api_update c10Env [] (fun _ => none)).2.2 = true := by
  have hlen : ∀ f, (c10Env.remote f).length = 10001 := by
    intro f
    rw [show c10Env.remote f = List.replicate 10001 ⟨some "W", none,
      some "10", none, none, none, none, none⟩ from rfl,
      List.length_replicate]
  have h := c10_partial_fetch_reported_success c10Env [] (fun _ => none)
    rfl rfl rfl rfl (by rw [hlen]; omega)
  exact ⟨rfl, rfl, h.2.1, h.2.2.1, h.2.2.2.1, h.2.2.2.2⟩
